import Mathlib

/-!
Verification development for the pivpn-nexus repository.

The definitions below are a shallow embedding of the namespace-based VPN
chain manager (`app/.vpn_manager.py`, class `AdvancedVPNNexusManager`) and of
the policy-routing helper (`app/vpn/manager.py`).  External commands are
modelled as emitted events; external outcomes (success of privileged calls,
tunnel readiness per polling attempt) are oracles supplied as parameters.
Failures of a multi-command helper are modelled at operation granularity:
the oracle decides the boolean the helper reports, and the emitted event
list stands for the commands that helper issues; the theorems below only
quantify over operations that are never attempted at all, or over the
successful path, so this granularity is faithful for every claim proved.
-/

/-! ## Python string primitives over the character list -/

/-- Python `str.strip()` on the character list: drop whitespace from both
ends. -/
def trimChars (l : List Char) : List Char :=
  ((l.dropWhile Char.isWhitespace).reverse.dropWhile Char.isWhitespace).reverse

/-- Python `str.strip()` on strings. -/
def pyStrip (s : String) : String := String.mk (trimChars s.data)

/-- Python `s.startswith(p)` on strings. -/
def pyStartsWith (s p : String) : Bool := p.data.isPrefixOf s.data

/-- Python `needle in hay` substring test on character lists. -/
def containsSub (needle hay : List Char) : Bool :=
  match hay with
  | [] => needle.isEmpty
  | c :: t => needle.isPrefixOf (c :: t) || containsSub needle t

/-- Python `needle in hay` substring test on strings. -/
def pyContains (hay needle : String) : Bool := containsSub needle.data hay.data

/-! ## Configuration rewriting (`_prepare_vpn_config`) -/

/-- Directive strings whose lines are dropped from the source configuration:
the list literal inside `_prepare_vpn_config`. -/
def droppedDirectives : List String :=
  ["route ", "redirect-gateway", "dhcp-option", "pull-filter", "route-nopull"]

/-- A source line is skipped when, after stripping, it starts with one of the
dropped directives: the `any(line.strip().startswith(x) ...)` test. -/
def isDroppedLine (line : String) : Bool :=
  droppedDirectives.any (fun x => pyStartsWith (pyStrip line) x)

/-- Lines appended by `_prepare_vpn_config` for every hop. -/
def addedLines : List String :=
  ["", "# Added by VPN Chain Manager", "script-security 2", "route-nopull",
   "persist-tun", "auth-nocache"]

/-- The explicit default-route line injected for hop 0 only, pointing at the
chain's internal gateway address 10.200.1.1. -/
def hopZeroRouteLine : String := "route 0.0.0.0 0.0.0.0 10.200.1.1"

/-- Content (as a list of lines) of the rewritten per-hop configuration file:
kept source lines, each stripped, then the appended directives, then the
hop-0 default route. -/
def prepare_vpn_config (src : List String) (hop_index : Nat) : List String :=
  ((src.filter (fun l => !isDroppedLine l)).map pyStrip)
    ++ addedLines
    ++ (if hop_index = 0 then [hopZeroRouteLine] else [])

/-! ## Files written by `_prepare_vpn_config` -/

/-- Final state of one file produced by `_prepare_vpn_config`: its path, its
content, and its permission bits after the `os.chmod` calls. -/
structure FileEntry where
  path : String
  content : String
  mode : Nat
deriving DecidableEq, Repr

/-- Per-hop temporary directory `config/temp/hop{hop_index}` (relative to the
manager base path). -/
def hopTempDir (hop_index : Nat) : String :=
  "config/temp/hop" ++ Nat.repr hop_index

/-- Files left in the per-hop temporary directory by `_prepare_vpn_config`:
the rewritten `config.ovpn` and, when a credentials file exists next to the
source configuration, a verbatim copy of it; both are chmod-ed to 0o600. -/
def prepare_vpn_files (src : List String) (creds : Option String)
    (hop_index : Nat) : List FileEntry :=
  [⟨hopTempDir hop_index ++ "/config.ovpn",
    String.intercalate "\n" (prepare_vpn_config src hop_index), 0o600⟩]
    ++ (match creds with
        | some c => [⟨hopTempDir hop_index ++ "/vpn-credentials.txt", c, 0o600⟩]
        | none => [])

/-! ## Readiness polling (`_start_vpn_in_namespace` wait loop and
`_verify_vpn_interface`) -/

/-- The fixed attempt budget `max_attempts = 12` of the initialization wait
loop. -/
def max_attempts : Nat := 12

/-- The fixed `time.sleep(5)` interval of the wait loop, in seconds. -/
def poll_interval : Nat := 5

/-- Outcome of `_verify_vpn_interface` at a given attempt: the check passes
only when `ip link show tun0` reports the device administratively up and the
single bounded `ping -c 1 -W 3 -I tun0 8.8.8.8` probe exits 0.  The two
sub-checks are oracles indexed by the attempt number. -/
def verify_vpn_interface (tunUp pingOk : Nat → Bool) (attempt : Nat) : Bool :=
  tunUp attempt && pingOk attempt

/-- Result of the readiness wait loop: whether the VPN was verified up, how
many verification attempts were made, and how many seconds were slept. -/
structure PollResult where
  success : Bool
  attempts : Nat
  slept : Nat
deriving DecidableEq, Repr

/-- The `for attempt in range(max_attempts)` loop: verify, and on failure
sleep `poll_interval` seconds and retry; give up when the fuel runs out. -/
def vpnWaitLoop (ready : Nat → Bool) : Nat → Nat → PollResult
  | 0, _ => ⟨false, 0, 0⟩
  | fuel + 1, attempt =>
    if ready attempt then ⟨true, 1, 0⟩
    else
      let r := vpnWaitLoop ready fuel (attempt + 1)
      ⟨r.success, r.attempts + 1, r.slept + poll_interval⟩

/-- The readiness poll of `_start_vpn_in_namespace`, starting at attempt 0
with the fixed budget. -/
def wait_for_vpn (ready : Nat → Bool) : PollResult :=
  vpnWaitLoop ready max_attempts 0

example : (wait_for_vpn (fun _ => false)).success = false := by decide
example : (wait_for_vpn (fun _ => false)).slept = 60 := by decide
example : (wait_for_vpn (fun a => decide (a = 3))).attempts = 4 := by decide

/-! ## Chain orchestration model (`setup_vpn_chain`, `cleanup_vpn_chain`)

Namespaces are created with the deterministic names `f"vpnns{i}"`
(`namespace_prefix + hop index`), so events about namespaces carry the hop
index; `nsName` gives the concrete name used in derived interface names.
-/

/-- Concrete namespace name `f"{self.namespace_prefix}{i}"`. -/
def nsName (i : Nat) : String := "vpnns" ++ Nat.repr i

/-- One privileged external command issued by the chain manager, abstracted
to the kernel object it touches. -/
inductive Ev where
  | killOpenvpn
  | deleteLink (name : String)
  | deleteNs (idx : Nat)
  | flushNat
  | addNs (idx : Nat)
  | addLink (a b : String)
  | moveLink (name ns : String)
  | addAddr (ns : Option String) (addr dev : String)
  | linkUp (ns : Option String) (dev : String)
  | routeAddDefault (ns : Option String) (gw : String)
  | sysctlForward
  | natMasquerade (src outIf : String)
  | natMasqueradeAll (src : String)
  | forwardAccept (inIf outIf : String)
  | writeResolv (ns : String)
  | tunAdd (ns : String)
  | startOpenvpn (ns : String)
  | allocBlock (n : Nat)
deriving DecidableEq, Repr

/-- An event is one of the four teardown actions issued by
`cleanup_vpn_chain` (process kill, link delete, namespace delete, NAT
flush); everything else creates or mutates kernel state. -/
def isTeardownEv : Ev → Bool
  | .killOpenvpn => true
  | .deleteLink _ => true
  | .deleteNs _ => true
  | .flushNat => true
  | _ => false

/-- An event is a default-route installation. -/
def isRouteAddEv : Ev → Bool
  | .routeAddDefault _ _ => true
  | _ => false

/-- One tracked virtual link: the two veth names the code stores in
`self.virtual_interfaces`, enriched with the address-block index the link
was given at creation (the `10.{block}` prefix). -/
structure Link where
  veth1 : String
  veth2 : String
  block : Nat
deriving DecidableEq, Repr

/-- Mutable manager state relevant to the chain: `self.vpn_chain` and
`self.virtual_interfaces`. -/
structure MState where
  vpn_chain : List String
  virtual_interfaces : List Link
deriving DecidableEq, Repr

/-- State of a freshly constructed manager: empty chain, no links. -/
def chainInit : MState := ⟨[], []⟩

/-- External environment of one manager: the provider registry
(`self.config.sections()`), the `random.sample` outcome for a requested hop
count, the detected default interface, and oracles for the outcome of each
externally-decided step, indexed by hop. -/
structure Env where
  providers : List String
  sample : Nat → List String
  defaultIf : String
  nsOk : Nat → Bool
  startOk : Nat → Bool
  tunUp : Nat → Nat → Bool
  pingOk : Nat → Nat → Bool
  connOk : Nat → Bool

/-- Commands issued by `_create_network_namespace` for hop `i`: namespace,
host veth pair, addresses 10.200.1.1/10.200.1.2, interfaces up, default
route to the host side, forwarding, NAT and DNS. -/
def createNsEvents (i : Nat) (defaultIf : String) : List Ev :=
  [Ev.addNs i,
   Ev.addLink ("veth0_" ++ nsName i) ("veth1_" ++ nsName i),
   Ev.moveLink ("veth1_" ++ nsName i) (nsName i),
   Ev.addAddr none "10.200.1.1/24" ("veth0_" ++ nsName i),
   Ev.addAddr (some (nsName i)) "10.200.1.2/24" ("veth1_" ++ nsName i),
   Ev.linkUp none ("veth0_" ++ nsName i),
   Ev.linkUp (some (nsName i)) ("veth1_" ++ nsName i),
   Ev.linkUp (some (nsName i)) "lo",
   Ev.routeAddDefault (some (nsName i)) "10.200.1.1",
   Ev.sysctlForward,
   Ev.natMasquerade "10.200.1.0/24" defaultIf,
   Ev.forwardAccept ("veth0_" ++ nsName i) defaultIf,
   Ev.forwardAccept defaultIf ("veth0_" ++ nsName i),
   Ev.writeResolv (nsName i)]

/-- Commands issued by `_start_vpn_in_namespace` for hop `i` (file
preparation is modelled separately by `prepare_vpn_files`): namespace DNS,
TUN device creation, and the daemonized OpenVPN launch. -/
def startVpnEvents (i : Nat) : List Ev :=
  [Ev.writeResolv (nsName i),
   Ev.tunAdd (nsName i),
   Ev.linkUp (some (nsName i)) "tun0",
   Ev.startOpenvpn (nsName i)]

/-- Reported outcome of `_start_vpn_in_namespace` for hop `i`: the OpenVPN
launch command must succeed and the bounded readiness poll must observe
`_verify_vpn_interface` true within the attempt budget. -/
def vpn_start_ok (env : Env) (i : Nat) : Bool :=
  env.startOk i
    && (wait_for_vpn (verify_vpn_interface (env.tunUp i) (env.pingOk i))).success

/-- Address-block prefix chosen by `_connect_namespaces`:
`f"10.{len(self.virtual_interfaces) + 1}"`. -/
def blockOfState (s : MState) : Nat := s.virtual_interfaces.length + 1

/-- The tracked link record `_connect_namespaces` appends on success,
with its veth names `f"veth_{ns1}_{ns2}"` / `f"veth_{ns2}_{ns1}"` and the
block index it drew. -/
def connectLink (s : MState) (ns1 ns2 : String) : Link :=
  ⟨"veth_" ++ ns1 ++ "_" ++ ns2, "veth_" ++ ns2 ++ "_" ++ ns1, blockOfState s⟩

/-- Commands issued by `_connect_namespaces ns1 ns2` in state `s`: draw the
next block prefix `10.{len+1}`, create and place the veth pair, address the
two ends `10.{b}.1.1/24` and `10.{b}.2.1/24`, bring them up, and add a
default route inside `ns1` via `10.{b}.1.2`. -/
def connectEvents (s : MState) (ns1 ns2 : String) : List Ev :=
  let b := Nat.repr (blockOfState s)
  let l := connectLink s ns1 ns2
  [Ev.allocBlock (blockOfState s),
   Ev.addLink l.veth1 l.veth2,
   Ev.moveLink l.veth1 ns1,
   Ev.moveLink l.veth2 ns2,
   Ev.addAddr (some ns1) ("10." ++ b ++ ".1.1/24") l.veth1,
   Ev.addAddr (some ns2) ("10." ++ b ++ ".2.1/24") l.veth2,
   Ev.linkUp (some ns1) l.veth1,
   Ev.linkUp (some ns2) l.veth2,
   Ev.routeAddDefault (some ns1) ("10." ++ b ++ ".1.2")]

/-- Commands issued by `_setup_chain_routing`: host IP forwarding, the
chain-wide masquerade, and the host default route into the first
namespace. -/
def chainRoutingEvents : List Ev :=
  [Ev.sysctlForward,
   Ev.natMasqueradeAll "10.200.1.0/24",
   Ev.routeAddDefault none "10.200.1.2"]

/-- Commands issued by `cleanup_vpn_chain` in state `s`: kill all OpenVPN
processes, delete the first veth of every tracked pair, delete the
namespaces `vpnns0 .. vpnns{len(vpn_chain)-1}`, and flush the NAT table.
Every command runs with `check=False`, so the sequence is emitted in full
regardless of individual command failures. -/
def cleanupEvents (s : MState) : List Ev :=
  [Ev.killOpenvpn]
    ++ s.virtual_interfaces.map (fun l => Ev.deleteLink l.veth1)
    ++ (List.range s.vpn_chain.length).map Ev.deleteNs
    ++ [Ev.flushNat]

/-- State transition and trace of `cleanup_vpn_chain`: after the teardown
commands, `self.virtual_interfaces = []` and `self.vpn_chain = []`. -/
def cleanup_vpn_chain (s : MState) : MState × List Ev :=
  (chainInit, cleanupEvents s)

/-- The per-hop body of the `for i, vpn in enumerate(self.vpn_chain)` loop
of `setup_vpn_chain`, processing `rem` remaining hops starting at index `i`.
Deviating from the Python only in bookkeeping, a sub-step failure returns
`false` here and the caller then performs the cleanup-and-return-False the
Python does inside the loop; the traces agree. -/
def chainLoop (env : Env) : Nat → Nat → MState → MState × List Ev × Bool
  | 0, _, s => (s, [], true)
  | rem + 1, i, s =>
    let ce := createNsEvents i env.defaultIf
    if !env.nsOk i then (s, ce, false)
    else
      let ve := startVpnEvents i
      if !vpn_start_ok env i then (s, ce ++ ve, false)
      else if i = 0 then
        let r := chainLoop env rem (i + 1) s
        (r.1, ce ++ ve ++ r.2.1, r.2.2)
      else
        let conn := connectEvents s (nsName (i - 1)) (nsName i)
        if !env.connOk i then (s, ce ++ ve ++ conn, false)
        else
          let s₂ : MState :=
            ⟨s.vpn_chain,
             s.virtual_interfaces ++ [connectLink s (nsName (i - 1)) (nsName i)]⟩
          let r := chainLoop env rem (i + 1) s₂
          (r.1, ce ++ ve ++ conn ++ r.2.1, r.2.2)

/-- `setup_vpn_chain(num_hops)`: defensive cleanup first, then the provider
count validation, then the per-hop loop; any loop failure triggers cleanup
and returns `False`; on success `_setup_chain_routing` runs (its return
value is not checked by the Python) and `True` is returned. -/
def setup_vpn_chain (env : Env) (num_hops : Nat) (s : MState) :
    MState × List Ev × Bool :=
  let c := cleanup_vpn_chain s
  if env.providers.length < num_hops then (c.1, c.2, false)
  else
    let chain := env.sample num_hops
    let s₂ : MState := ⟨chain, c.1.virtual_interfaces⟩
    let r := chainLoop env chain.length 0 s₂
    if r.2.2 then (r.1, c.2 ++ r.2.1 ++ chainRoutingEvents, true)
    else
      let c₂ := cleanup_vpn_chain r.1
      (c₂.1, c.2 ++ r.2.1 ++ c₂.2, false)

/-- One orchestrator entry point invocation: a `Setup` call with its
environment and requested hop count, or a `Cleanup` call. -/
inductive ChainOp where
  | setup (env : Env) (num_hops : Nat)
  | cleanup

/-- Apply one entry-point call to the manager state. -/
def applyChainOp (s : MState) : ChainOp → MState × List Ev
  | .setup env n => let r := setup_vpn_chain env n s; (r.1, r.2.1)
  | .cleanup => cleanup_vpn_chain s

/-- Run a sequence of Setup/Cleanup calls, accumulating the manager state
and the full command trace. -/
def runChainOps : MState → List ChainOp → MState × List Ev
  | s, [] => (s, [])
  | s, op :: rest =>
    let r₁ := applyChainOp s op
    let r₂ := runChainOps r₁.1 rest
    (r₂.1, r₁.2 ++ r₂.2)

/-- The address-block indices drawn by `_connect_namespaces`, in trace
order. -/
def allocatedBlocks (tr : List Ev) : List Nat :=
  tr.filterMap (fun e => match e with | .allocBlock n => some n | _ => none)

/-! ## Policy-routing tables (`_setup_routing_rules` in `app/vpn/manager.py`)

Commands are modelled as the argv lists `VPNCommandFactory` builds (note the
factory's `with_option` prefixes every option name with `--`, so the bash
command carries `--c`, although the factory's own `SHELL_OPTIONS` table
declares the single-letter option `c`).  The content of
`/etc/iproute2/rt_tables` is the state.  The outcomes of the two commands
the function runs with `check=True` — the `cat` read and the bash
registration write — are oracles: a failing read is caught by the inner
`except` branch and leaves `tables_exist = False`, while a failing write
raises `VPNError` out of `run_command` into the function's outer `except`,
which returns `False` before any rule-delete/rule-flush command is issued.
-/

/-- The first dedicated routing table id, `self.vpn1_table = 11`. -/
def vpn1_table : Nat := 11

/-- The second dedicated routing table id, `self.vpn2_table = 12`. -/
def vpn2_table : Nat := 12

/-- Argv built by `VPNCommandFactory.read_routing_tables()`. -/
def read_routing_tables : List String :=
  ["sudo", "cat", "/etc/iproute2/rt_tables"]

/-- Argv built by `VPNCommandFactory.write_routing_tables(content)`: a bash
invocation meant to append `echo`-ed content to the table-name file; the
builder emits the option as `--c`. -/
def write_routing_tables (content : String) : List String :=
  ["sudo", "bash", "--c",
   "echo \x27" ++ content ++ "\x27 >> /etc/iproute2/rt_tables"]

/-- Argv built by `VPNCommandFactory.delete_routing_rule(table)`. -/
def delete_routing_rule (t : String) : List String :=
  ["sudo", "ip", "rule", "del", "--table", t]

/-- Argv built by `VPNCommandFactory.flush_routing_table(table)`: despite
the factory method's name and docstring, the command it builds is an
`ip rule flush` invocation, not a route flush. -/
def flush_routing_table (t : String) : List String :=
  ["sudo", "ip", "rule", "flush", "--table", t]

/-- The `tables_exist` test: both table ids occur as substrings of the file
content read back (`str(self.vpn1_table) in stdout and ...`). -/
def tablesRegistered (file : String) : Bool :=
  pyContains file (Nat.repr vpn1_table) && pyContains file (Nat.repr vpn2_table)

/-- The appended registration block
`f"\n{self.vpn1_table} vpn1\n{self.vpn2_table} vpn2\n"`. -/
def tablesContent : String :=
  "\n" ++ Nat.repr vpn1_table ++ " vpn1\n" ++ Nat.repr vpn2_table ++ " vpn2\n"

/-- Outcomes of the two `check=True` commands of one `_setup_routing_rules`
call: whether the `cat` read of the table-name file succeeds, and whether
the bash registration write exits 0 (with the `--c` argv the factory
builds, bash in fact rejects the invocation, so the write fails). -/
structure RoutingEnv where
  readOk : Bool
  writeOk : Bool

/-- One `_setup_routing_rules` call on the current table-name file content.
The read command is issued first; `tables_exist` is true only when that
read succeeded and both ids are substrings of the content (a failed read is
caught by the inner `except` and leaves it false, forcing a write attempt
even when the ids are present).  When `tables_exist` is false the
registration write runs with `check=True`: on success the `echo` appends
the block (plus the newline `echo` adds) and execution reaches the
rule-delete/rule-flush loop; on failure `run_command` raises `VPNError`
and the outer `except` returns `False` before any delete/flush command.
The delete/flush commands themselves run with `check=False`, so their
outcomes are irrelevant.  Returns the new file content, the issued
commands in order, and the boolean result. -/
def setup_routing_rules (env : RoutingEnv) (file : String) :
    String × List (List String) × Bool :=
  let exist := env.readOk && tablesRegistered file
  if exist then
    (file, [read_routing_tables,
            delete_routing_rule (Nat.repr vpn1_table),
            flush_routing_table (Nat.repr vpn1_table),
            delete_routing_rule (Nat.repr vpn2_table),
            flush_routing_table (Nat.repr vpn2_table)], true)
  else if env.writeOk then
    (file ++ tablesContent ++ "\n",
     [read_routing_tables, write_routing_tables tablesContent,
      delete_routing_rule (Nat.repr vpn1_table),
      flush_routing_table (Nat.repr vpn1_table),
      delete_routing_rule (Nat.repr vpn2_table),
      flush_routing_table (Nat.repr vpn2_table)], true)
  else
    (file, [read_routing_tables, write_routing_tables tablesContent], false)

/-- The table-name file content after `n` repeated `_setup_routing_rules`
calls under the same command outcomes. -/
def iter_setup_routing (env : RoutingEnv) : Nat → String → String
  | 0, f => f
  | n + 1, f => iter_setup_routing env n (setup_routing_rules env f).1

/-- All three sub-steps of one loop iteration of `setup_vpn_chain` report
success for hop `j`: namespace creation, tunnel start with verified
readiness, and (for hops after the first) the namespace connection. -/
def stepOk (env : Env) (j : Nat) : Bool :=
  env.nsOk j && vpn_start_ok env j && (decide (j = 0) || env.connOk j)

/-! ## Lemmas about the readiness poll -/

theorem vpnWaitLoop_success_iff (ready : Nat → Bool) :
    ∀ fuel att, (vpnWaitLoop ready fuel att).success = true ↔
      ∃ j, j < fuel ∧ ready (att + j) = true := by
  intro fuel
  induction fuel with
  | zero => intro att; simp [vpnWaitLoop]
  | succ n ih =>
    intro att
    cases hr : ready att with
    | true =>
      simp only [vpnWaitLoop, hr, if_true]
      constructor
      · intro _; exact ⟨0, Nat.succ_pos n, by simpa using hr⟩
      · intro _; trivial
    | false =>
      have hstep : vpnWaitLoop ready (n + 1) att =
          ⟨(vpnWaitLoop ready n (att + 1)).success,
           (vpnWaitLoop ready n (att + 1)).attempts + 1,
           (vpnWaitLoop ready n (att + 1)).slept + poll_interval⟩ := by
        simp [vpnWaitLoop, hr]
      rw [hstep]
      show (vpnWaitLoop ready n (att + 1)).success = true ↔ _
      rw [ih (att + 1)]
      constructor
      · rintro ⟨j, hj, hready⟩
        refine ⟨j + 1, by omega, ?_⟩
        have harith : att + (j + 1) = att + 1 + j := by omega
        rw [harith]; exact hready
      · rintro ⟨j, hj, hready⟩
        cases j with
        | zero => simp only [Nat.add_zero] at hready; rw [hr] at hready; cases hready
        | succ j =>
          refine ⟨j, by omega, ?_⟩
          have harith : att + 1 + j = att + (j + 1) := by omega
          rw [harith]; exact hready

theorem vpnWaitLoop_step_false (ready : Nat → Bool) (n att : Nat)
    (hr : ready att = false) :
    vpnWaitLoop ready (n + 1) att =
      ⟨(vpnWaitLoop ready n (att + 1)).success,
       (vpnWaitLoop ready n (att + 1)).attempts + 1,
       (vpnWaitLoop ready n (att + 1)).slept + poll_interval⟩ := by
  simp [vpnWaitLoop, hr]

theorem vpnWaitLoop_attempts_le (ready : Nat → Bool) :
    ∀ fuel att, (vpnWaitLoop ready fuel att).attempts ≤ fuel := by
  intro fuel
  induction fuel with
  | zero => intro att; simp [vpnWaitLoop]
  | succ n ih =>
    intro att
    cases hr : ready att with
    | true => simp [vpnWaitLoop, hr]
    | false =>
      rw [vpnWaitLoop_step_false ready n att hr]
      have := ih (att + 1)
      show (vpnWaitLoop ready n (att + 1)).attempts + 1 ≤ n + 1
      omega

theorem vpnWaitLoop_slept_le (ready : Nat → Bool) :
    ∀ fuel att, (vpnWaitLoop ready fuel att).slept ≤ poll_interval * fuel := by
  intro fuel
  induction fuel with
  | zero => intro att; simp [vpnWaitLoop]
  | succ n ih =>
    intro att
    cases hr : ready att with
    | true => simp [vpnWaitLoop, hr]
    | false =>
      rw [vpnWaitLoop_step_false ready n att hr]
      have := ih (att + 1)
      show (vpnWaitLoop ready n (att + 1)).slept + poll_interval ≤
        poll_interval * (n + 1)
      have harith : poll_interval * (n + 1) = poll_interval * n + poll_interval := by
        ring
      omega

theorem vpnWaitLoop_fail (ready : Nat → Bool) :
    ∀ fuel att, (vpnWaitLoop ready fuel att).success = false →
      (vpnWaitLoop ready fuel att).attempts = fuel ∧
      (vpnWaitLoop ready fuel att).slept = poll_interval * fuel := by
  intro fuel
  induction fuel with
  | zero => intro att _; simp [vpnWaitLoop]
  | succ n ih =>
    intro att hfail
    cases hr : ready att with
    | true => exfalso; simp [vpnWaitLoop, hr] at hfail
    | false =>
      rw [vpnWaitLoop_step_false ready n att hr] at hfail ⊢
      have hrec := ih (att + 1) hfail
      have harith : poll_interval * (n + 1) = poll_interval * n + poll_interval := by
        ring
      refine ⟨?_, ?_⟩
      · show (vpnWaitLoop ready n (att + 1)).attempts + 1 = n + 1
        omega
      · show (vpnWaitLoop ready n (att + 1)).slept + poll_interval =
          poll_interval * (n + 1)
        omega

/-- C6: for every hop, the tunnel readiness poll performs at most the fixed
budget of 12 attempts at a fixed 5-second interval, succeeds exactly when,
at some attempt within the budget, the tunnel device is administratively up
and the single ICMP probe bound to it succeeds, and exhausting the budget is
a hard failure after exactly 12 attempts and 60 seconds of sleeping — the
loop terminates and never blocks indefinitely (the failure is surfaced to
the orchestrator as the False result that aborts the chain, the condition
the spec labels ConnectionError). -/
theorem readiness_poll_bounded (tunUp pingOk : Nat → Bool) :
    (wait_for_vpn (verify_vpn_interface tunUp pingOk)).attempts ≤ max_attempts
    ∧ ((wait_for_vpn (verify_vpn_interface tunUp pingOk)).success = true ↔
        ∃ i, i < max_attempts ∧ tunUp i = true ∧ pingOk i = true)
    ∧ (wait_for_vpn (verify_vpn_interface tunUp pingOk)).slept ≤
        max_attempts * poll_interval
    ∧ ((wait_for_vpn (verify_vpn_interface tunUp pingOk)).success = false →
        (wait_for_vpn (verify_vpn_interface tunUp pingOk)).attempts = max_attempts
        ∧ (wait_for_vpn (verify_vpn_interface tunUp pingOk)).slept =
            max_attempts * poll_interval) := by
  refine ⟨?_, ?_, ?_, ?_⟩
  · exact vpnWaitLoop_attempts_le _ max_attempts 0
  · rw [wait_for_vpn, vpnWaitLoop_success_iff]
    constructor
    · rintro ⟨j, hj, hready⟩
      simp only [Nat.zero_add] at hready
      rw [verify_vpn_interface, Bool.and_eq_true] at hready
      exact ⟨j, hj, hready⟩
    · rintro ⟨j, hj, h1, h2⟩
      refine ⟨j, hj, ?_⟩
      simp only [Nat.zero_add]
      rw [verify_vpn_interface, Bool.and_eq_true]
      exact ⟨h1, h2⟩
  · have := vpnWaitLoop_slept_le (verify_vpn_interface tunUp pingOk) max_attempts 0
    have hcomm : max_attempts * poll_interval = poll_interval * max_attempts :=
      Nat.mul_comm _ _
    rw [wait_for_vpn]
    omega
  · intro hfail
    have := vpnWaitLoop_fail (verify_vpn_interface tunUp pingOk) max_attempts 0 hfail
    have hcomm : max_attempts * poll_interval = poll_interval * max_attempts :=
      Nat.mul_comm _ _
    rw [wait_for_vpn]
    omega

/-- C6 witness: with the device up and the probe succeeding only from
attempt 3 on, the poll succeeds; with the probe never succeeding, it fails
after exactly 12 attempts and 60 seconds. -/
theorem readiness_poll_bounded_witness :
    ((wait_for_vpn (verify_vpn_interface (fun a => decide (3 ≤ a))
        (fun a => decide (3 ≤ a)))).success = true
      ∧ (wait_for_vpn (verify_vpn_interface (fun _ => true)
          (fun _ => false))).attempts = 12
      ∧ (wait_for_vpn (verify_vpn_interface (fun _ => true)
          (fun _ => false))).slept = 60) := by
  have h₁ := readiness_poll_bounded (fun a => decide (3 ≤ a)) (fun a => decide (3 ≤ a))
  have h₂ := readiness_poll_bounded (fun _ => true) (fun _ => false)
  refine ⟨?_, ?_⟩
  · exact h₁.2.1.mpr ⟨3, by decide, by decide, by decide⟩
  · have hfail := h₂.2.2.2 (by decide)
    exact ⟨hfail.1, hfail.2⟩

/-! ## Lemmas for the configuration rewriting -/

theorem mem_prepare_src_part {src : List String} {l : String}
    (hl : l ∈ (src.filter (fun s => !isDroppedLine s)).map pyStrip) :
    ∀ x ∈ droppedDirectives, pyStartsWith l x = false := by
  rcases List.mem_map.mp hl with ⟨l₀, hl₀, rfl⟩
  rcases List.mem_filter.mp hl₀ with ⟨-, hkeep⟩
  rw [Bool.not_eq_true'] at hkeep
  intro x hx
  have := (List.any_eq_false.mp hkeep) x hx
  simpa using this

theorem src_part_count_route {src : List String} :
    ((src.filter (fun s => !isDroppedLine s)).map pyStrip).count
      hopZeroRouteLine = 0 := by
  rw [List.count_eq_zero]
  intro hmem
  have h := mem_prepare_src_part hmem "route " (by decide)
  rw [show pyStartsWith hopZeroRouteLine "route " = true from by decide] at h
  cases h

/-- C2: every line of the rewritten per-hop file is either one of the
appended chain directives, the injected hop-0 default route, or a kept
source line that starts with none of the dropped directives (`route `,
`redirect-gateway`, `dhcp-option`, `pull-filter`, `route-nopull`); the
appended `route-nopull`, `persist-tun`, `auth-nocache` and script-security
directives are always present; the injected default-route line to the
chain's internal gateway occurs exactly once for hop 0 and never for other
hops; and on the concrete input with a `redirect-gateway def1` line and a
`cipher AES-128-CBC` line, the hop-0 output has no line starting with
`redirect-gateway`, contains `route-nopull`, and keeps the cipher line. -/
theorem prepare_vpn_config_rewrites (src : List String) (hop_index : Nat) :
    (∀ l ∈ prepare_vpn_config src hop_index,
        l ∈ addedLines ∨ l = hopZeroRouteLine ∨
          ∀ x ∈ droppedDirectives, pyStartsWith l x = false)
    ∧ "script-security 2" ∈ prepare_vpn_config src hop_index
    ∧ "route-nopull" ∈ prepare_vpn_config src hop_index
    ∧ "persist-tun" ∈ prepare_vpn_config src hop_index
    ∧ "auth-nocache" ∈ prepare_vpn_config src hop_index
    ∧ (hop_index = 0 →
        (prepare_vpn_config src hop_index).count hopZeroRouteLine = 1)
    ∧ (hop_index ≠ 0 →
        (prepare_vpn_config src hop_index).count hopZeroRouteLine = 0)
    ∧ (prepare_vpn_config ["redirect-gateway def1", "cipher AES-128-CBC"]
          0).all (fun l => !pyStartsWith l "redirect-gateway") = true
    ∧ "route-nopull" ∈
        prepare_vpn_config ["redirect-gateway def1", "cipher AES-128-CBC"] 0
    ∧ "cipher AES-128-CBC" ∈
        prepare_vpn_config ["redirect-gateway def1", "cipher AES-128-CBC"] 0 := by
  refine ⟨?_, ?_, ?_, ?_, ?_, ?_, ?_, by decide, by decide, by decide⟩
  · intro l hl
    rw [prepare_vpn_config, List.append_assoc] at hl
    rcases List.mem_append.mp hl with hsrc | hrest
    · exact Or.inr (Or.inr (mem_prepare_src_part hsrc))
    · rcases List.mem_append.mp hrest with hadd | hif
      · exact Or.inl hadd
      · by_cases h0 : hop_index = 0
        · rw [if_pos h0] at hif
          rcases List.mem_singleton.mp hif with rfl
          exact Or.inr (Or.inl rfl)
        · rw [if_neg h0] at hif
          cases hif
  · rw [prepare_vpn_config]
    exact List.mem_append.mpr (Or.inl (List.mem_append.mpr (Or.inr (by decide))))
  · rw [prepare_vpn_config]
    exact List.mem_append.mpr (Or.inl (List.mem_append.mpr (Or.inr (by decide))))
  · rw [prepare_vpn_config]
    exact List.mem_append.mpr (Or.inl (List.mem_append.mpr (Or.inr (by decide))))
  · rw [prepare_vpn_config]
    exact List.mem_append.mpr (Or.inl (List.mem_append.mpr (Or.inr (by decide))))
  · intro h0
    rw [prepare_vpn_config, if_pos h0, List.count_append, List.count_append,
      src_part_count_route]
    decide
  · intro h0
    rw [prepare_vpn_config, if_neg h0, List.count_append, List.count_append,
      src_part_count_route]
    decide

/-- C2 witness: the rewriting theorem applied to the concrete input file of
the claim at hop 0. -/
theorem prepare_vpn_config_rewrites_witness :
    (prepare_vpn_config ["redirect-gateway def1", "cipher AES-128-CBC"]
        0).count hopZeroRouteLine = 1
    ∧ "route-nopull" ∈
        prepare_vpn_config ["redirect-gateway def1", "cipher AES-128-CBC"] 0 := by
  have h := prepare_vpn_config_rewrites
    ["redirect-gateway def1", "cipher AES-128-CBC"] 0
  exact ⟨h.2.2.2.2.2.1 rfl, h.2.2.1⟩

/-! ## Lemmas for the per-hop files -/

theorem pyStartsWith_append (a b : String) : pyStartsWith (a ++ b) a = true := by
  rw [pyStartsWith, String.data_append]
  exact List.isPrefixOf_iff_prefix.mpr (List.prefix_append a.data b.data)

/-- C8: every file `_prepare_vpn_config` leaves behind lives in the per-hop
temporary directory and carries owner read/write-only permissions 0o600,
and when a credentials file is present its content is copied verbatim into
`vpn-credentials.txt` in that directory with the same 0o600 mode. -/
theorem prepare_vpn_files_secure (src : List String) (creds : Option String)
    (hop_index : Nat) :
    (∀ e ∈ prepare_vpn_files src creds hop_index,
        e.mode = 0o600
        ∧ pyStartsWith e.path (hopTempDir hop_index) = true)
    ∧ (∀ c, creds = some c →
        (⟨hopTempDir hop_index ++ "/vpn-credentials.txt", c, 0o600⟩ : FileEntry)
          ∈ prepare_vpn_files src creds hop_index)
    ∧ (⟨hopTempDir hop_index ++ "/config.ovpn",
        String.intercalate "\n" (prepare_vpn_config src hop_index), 0o600⟩ :
          FileEntry) ∈ prepare_vpn_files src creds hop_index := by
  refine ⟨?_, ?_, ?_⟩
  · intro e he
    cases creds with
    | none =>
      rcases List.mem_singleton.mp (by simpa [prepare_vpn_files] using he) with rfl
      exact ⟨rfl, pyStartsWith_append _ _⟩
    | some c =>
      have he₂ : e ∈ [(⟨hopTempDir hop_index ++ "/config.ovpn",
          String.intercalate "\n" (prepare_vpn_config src hop_index),
          0o600⟩ : FileEntry)]
          ++ [⟨hopTempDir hop_index ++ "/vpn-credentials.txt", c, 0o600⟩] := he
      rcases List.mem_append.mp he₂ with hcfg | hcreds
      · rcases List.mem_singleton.mp hcfg with rfl
        exact ⟨rfl, pyStartsWith_append _ _⟩
      · rcases List.mem_singleton.mp hcreds with rfl
        exact ⟨rfl, pyStartsWith_append _ _⟩
  · intro c hc
    subst hc
    show _ ∈ [(⟨hopTempDir hop_index ++ "/config.ovpn",
        String.intercalate "\n" (prepare_vpn_config src hop_index),
        0o600⟩ : FileEntry)]
        ++ [⟨hopTempDir hop_index ++ "/vpn-credentials.txt", c, 0o600⟩]
    exact List.mem_append.mpr (Or.inr (List.mem_singleton.mpr rfl))
  · cases creds with
    | none =>
      exact List.mem_append.mpr (Or.inl (List.mem_singleton.mpr rfl))
    | some c =>
      exact List.mem_append.mpr (Or.inl (List.mem_singleton.mpr rfl))

/-- C8 witness: the file theorem applied at hop 0 to a one-line source
configuration with a concrete two-line credentials file. -/
theorem prepare_vpn_files_secure_witness :
    (⟨"config/temp/hop0/vpn-credentials.txt", "user\npass", 0o600⟩ : FileEntry)
      ∈ prepare_vpn_files ["cipher AES-128-CBC"] (some "user\npass") 0 := by
  have h := prepare_vpn_files_secure ["cipher AES-128-CBC"] (some "user\npass") 0
  have hmem := h.2.1 "user\npass" rfl
  exact hmem

/-! ## Lemmas about cleanup and the emitted events -/

theorem mem_kill_cleanupEvents (s : MState) :
    Ev.killOpenvpn ∈ cleanupEvents s := by
  simp [cleanupEvents]

theorem mem_flush_cleanupEvents (s : MState) :
    Ev.flushNat ∈ cleanupEvents s := by
  simp [cleanupEvents]

theorem mem_deleteLink_cleanupEvents (s : MState) :
    ∀ l ∈ s.virtual_interfaces, Ev.deleteLink l.veth1 ∈ cleanupEvents s := by
  intro l hl
  unfold cleanupEvents
  exact List.mem_append_left _
    (List.mem_append_left _ (List.mem_append_right _ (List.mem_map_of_mem _ hl)))

theorem mem_deleteNs_cleanupEvents (s : MState) :
    ∀ i, i < s.vpn_chain.length → Ev.deleteNs i ∈ cleanupEvents s := by
  intro i hi
  unfold cleanupEvents
  exact List.mem_append_left _
    (List.mem_append_right _ (List.mem_map_of_mem _ (List.mem_range.mpr hi)))

theorem cleanupEvents_teardown (s : MState) :
    ∀ e ∈ cleanupEvents s, isTeardownEv e = true := by
  intro e he
  unfold cleanupEvents at he
  rcases List.mem_append.mp he with h1 | h4
  · rcases List.mem_append.mp h1 with h2 | h3
    · rcases List.mem_append.mp h2 with hk | hm
      · rcases List.mem_singleton.mp hk with rfl; rfl
      · rcases List.mem_map.mp hm with ⟨l, -, rfl⟩; rfl
    · rcases List.mem_map.mp h3 with ⟨i, -, rfl⟩; rfl
  · rcases List.mem_singleton.mp h4 with rfl; rfl

theorem addNs_not_mem_cleanupEvents (j : Nat) (s : MState) :
    Ev.addNs j ∉ cleanupEvents s := by
  simp [cleanupEvents]

theorem addNs_mem_createNsEvents {j i : Nat} {d : String}
    (h : Ev.addNs j ∈ createNsEvents i d) : j = i := by
  simpa [createNsEvents] using h

theorem addNs_not_mem_startVpnEvents (j i : Nat) :
    Ev.addNs j ∉ startVpnEvents i := by
  simp [startVpnEvents]

theorem addNs_not_mem_connectEvents (j : Nat) (s : MState) (ns1 ns2 : String) :
    Ev.addNs j ∉ connectEvents s ns1 ns2 := by
  simp [connectEvents]

/-- C5: `cleanup_vpn_chain` is total and idempotent: it is a function (it
cannot throw — every command it issues runs with `check=False` and its
trace is emitted in full whatever the individual command outcomes), after
any call the tracked state is empty, a second call from the resulting state
leaves the same empty state and issues only the unconditional kill and NAT
flush, and in any call every tracked link and every tracked namespace index
gets its deletion attempted. -/
theorem cleanup_idempotent_total (s : MState) :
    (cleanup_vpn_chain s).1 = chainInit
    ∧ cleanup_vpn_chain ((cleanup_vpn_chain s).1) =
        (chainInit, [Ev.killOpenvpn, Ev.flushNat])
    ∧ Ev.killOpenvpn ∈ (cleanup_vpn_chain s).2
    ∧ Ev.flushNat ∈ (cleanup_vpn_chain s).2
    ∧ (∀ l ∈ s.virtual_interfaces, Ev.deleteLink l.veth1 ∈ (cleanup_vpn_chain s).2)
    ∧ (∀ i, i < s.vpn_chain.length → Ev.deleteNs i ∈ (cleanup_vpn_chain s).2)
    ∧ (∀ e ∈ (cleanup_vpn_chain s).2, isTeardownEv e = true) := by
  refine ⟨rfl, rfl, mem_kill_cleanupEvents s, mem_flush_cleanupEvents s,
    mem_deleteLink_cleanupEvents s, mem_deleteNs_cleanupEvents s,
    cleanupEvents_teardown s⟩

/-- C5 witness: the cleanup theorem applied to a state tracking a two-hop
chain with one link; both namespace deletions and the link deletion are in
the trace and the second call is the fixed kill-and-flush. -/
theorem cleanup_idempotent_total_witness :
    Ev.deleteNs 1 ∈ (cleanup_vpn_chain ⟨["a", "b"], [⟨"v1", "v2", 1⟩]⟩).2
    ∧ Ev.deleteLink "v1" ∈ (cleanup_vpn_chain ⟨["a", "b"], [⟨"v1", "v2", 1⟩]⟩).2
    ∧ cleanup_vpn_chain ((cleanup_vpn_chain ⟨["a", "b"], [⟨"v1", "v2", 1⟩]⟩).1) =
        (chainInit, [Ev.killOpenvpn, Ev.flushNat]) := by
  have h := cleanup_idempotent_total ⟨["a", "b"], [⟨"v1", "v2", 1⟩]⟩
  exact ⟨h.2.2.2.2.2.1 1 (by decide), h.2.2.2.2.1 ⟨"v1", "v2", 1⟩ (by decide),
    h.2.1⟩

/-- C4: when the requested hop count exceeds the number of registered
providers, `setup_vpn_chain` returns failure with the tracked chain state
empty (Idle), and the only commands the call issued are the teardown
commands of the defensive initial cleanup — in particular the call creates
no kernel object and never creates a namespace. -/
theorem setup_insufficient_providers (env : Env) (n : Nat) (s : MState)
    (h : env.providers.length < n) :
    setup_vpn_chain env n s = (chainInit, cleanupEvents s, false)
    ∧ (∀ e ∈ (setup_vpn_chain env n s).2.1, isTeardownEv e = true)
    ∧ (∀ j, Ev.addNs j ∉ (setup_vpn_chain env n s).2.1) := by
  have heq : setup_vpn_chain env n s = (chainInit, cleanupEvents s, false) := by
    rw [setup_vpn_chain]
    simp only [if_pos h]
    rfl
  refine ⟨heq, ?_, ?_⟩
  · rw [heq]; exact cleanupEvents_teardown s
  · intro j; rw [heq]; exact addNs_not_mem_cleanupEvents j s

/-- C4 witness: one registered provider, two requested hops, starting from
an idle manager. -/
theorem setup_insufficient_providers_witness :
    setup_vpn_chain ⟨["a"], fun n => List.take n ["a"], "eth0", fun _ => true,
        fun _ => true, fun _ _ => true, fun _ _ => true, fun _ => true⟩ 2
        chainInit =
      (chainInit, [Ev.killOpenvpn, Ev.flushNat], false) := by
  have h := setup_insufficient_providers ⟨["a"], fun n => List.take n ["a"],
    "eth0", fun _ => true, fun _ => true, fun _ _ => true, fun _ _ => true,
    fun _ => true⟩ 2 chainInit (by decide)
  rw [h.1]; rfl

/-- C10: every `setup_vpn_chain` call starts by issuing the full
`cleanup_vpn_chain` command sequence for the pre-call state — killing the
tunnel processes, deleting every tracked link and namespace and flushing
the NAT table — and only then performs the provider-count validation; when
that validation fails the trace is exactly the cleanup sequence, so the
teardown also runs on calls that fail validation. -/
theorem setup_runs_cleanup_first (env : Env) (n : Nat) (s : MState) :
    (∃ rest, (setup_vpn_chain env n s).2.1 = cleanupEvents s ++ rest)
    ∧ (env.providers.length < n →
        (setup_vpn_chain env n s).2.1 = cleanupEvents s)
    ∧ Ev.killOpenvpn ∈ cleanupEvents s
    ∧ Ev.flushNat ∈ cleanupEvents s
    ∧ (∀ l ∈ s.virtual_interfaces, Ev.deleteLink l.veth1 ∈ cleanupEvents s)
    ∧ (∀ i, i < s.vpn_chain.length → Ev.deleteNs i ∈ cleanupEvents s) := by
  refine ⟨?_, ?_, mem_kill_cleanupEvents s, mem_flush_cleanupEvents s,
    mem_deleteLink_cleanupEvents s, mem_deleteNs_cleanupEvents s⟩
  · rw [setup_vpn_chain]
    by_cases h : env.providers.length < n
    · simp only [if_pos h]
      exact ⟨[], (List.append_nil _).symm⟩
    · simp only [if_neg h]
      by_cases hr : (chainLoop env (env.sample n).length 0
          ⟨env.sample n, (cleanup_vpn_chain s).1.virtual_interfaces⟩).2.2 = true
      · simp only [hr, if_true]
        exact ⟨_, List.append_assoc _ _ _⟩
      · simp only [Bool.not_eq_true] at hr
        simp only [hr, Bool.false_eq_true, if_false]
        exact ⟨_, List.append_assoc _ _ _⟩
  · intro h
    rw [setup_vpn_chain]
    simp only [if_pos h]
    rfl

/-- C10 witness: with two providers and three requested hops (validation
will fail), the call still runs the cleanup of the pre-call state first and
its trace is exactly that cleanup sequence. -/
theorem setup_runs_cleanup_first_witness :
    (setup_vpn_chain ⟨["a", "b"], fun n => List.take n ["a", "b"], "eth0",
        fun _ => true, fun _ => true, fun _ _ => true, fun _ _ => true,
        fun _ => true⟩ 3 ⟨["a"], [⟨"v1", "v2", 1⟩]⟩).2.1 =
      cleanupEvents ⟨["a"], [⟨"v1", "v2", 1⟩]⟩ := by
  have h := setup_runs_cleanup_first ⟨["a", "b"], fun n => List.take n ["a", "b"],
    "eth0", fun _ => true, fun _ => true, fun _ _ => true, fun _ _ => true,
    fun _ => true⟩ 3 ⟨["a"], [⟨"v1", "v2", 1⟩]⟩
  exact h.2.1 (by decide)

/-- C7 evidence: evaluating `_connect_namespaces` on the first adjacent pair
(previous namespace `vpnns0`, next namespace `vpnns1`, no links tracked
yet) shows that the only default route it installs goes into the EARLIER
namespace `vpnns0`, via gateway `10.1.1.2` — an address assigned to neither
end of the link (the `vpnns0` end gets `10.1.1.1/24`, the `vpnns1` end gets
`10.1.2.1/24`); no route is installed in the later namespace `vpnns1` at
all, contradicting the documented later-to-earlier chain routing. -/
theorem connect_routes_in_earlier_namespace :
    (connectEvents chainInit (nsName 0) (nsName 1)).filter isRouteAddEv =
      [Ev.routeAddDefault (some "vpnns0") "10.1.1.2"]
    ∧ Ev.addAddr (some "vpnns0") "10.1.1.1/24" "veth_vpnns0_vpnns1"
        ∈ connectEvents chainInit (nsName 0) (nsName 1)
    ∧ Ev.addAddr (some "vpnns1") "10.1.2.1/24" "veth_vpnns1_vpnns0"
        ∈ connectEvents chainInit (nsName 0) (nsName 1)
    ∧ "10.1.1.2" ≠ "10.1.1.1"
    ∧ "10.1.1.2" ≠ "10.1.2.1"
    ∧ (∀ gw, Ev.routeAddDefault (some (nsName 1)) gw
        ∉ connectEvents chainInit (nsName 0) (nsName 1)) := by
  refine ⟨by decide, by decide, by decide, by decide, by decide, ?_⟩
  intro gw hmem
  have hfilter : Ev.routeAddDefault (some (nsName 1)) gw ∈
      (connectEvents chainInit (nsName 0) (nsName 1)).filter isRouteAddEv :=
    List.mem_filter.mpr ⟨hmem, rfl⟩
  rw [show (connectEvents chainInit (nsName 0) (nsName 1)).filter isRouteAddEv =
    [Ev.routeAddDefault (some "vpnns0") "10.1.1.2"] from by decide] at hfilter
  have heq := List.mem_singleton.mp hfilter
  injection heq with h1 h2
  exact absurd h1 (by decide)

/-! ## Lemmas about the setup loop -/

theorem chainLoop_fail_at (env : Env) (k : Nat)
    (hns : env.nsOk k = true) (hvpn : vpn_start_ok env k = false) :
    ∀ rem i s, i ≤ k → k < i + rem →
      (∀ j, i ≤ j → j < k → stepOk env j = true) →
      (chainLoop env rem i s).2.2 = false
      ∧ (chainLoop env rem i s).1.vpn_chain = s.vpn_chain
      ∧ (∀ j, Ev.addNs j ∈ (chainLoop env rem i s).2.1 → i ≤ j ∧ j ≤ k) := by
  intro rem
  induction rem with
  | zero => intro i s hik hlt _; omega
  | succ n ih =>
    intro i s hik hlt hsteps
    by_cases hic : i = k
    · subst hic
      have hstep : chainLoop env (n + 1) i s =
          (s, createNsEvents i env.defaultIf ++ startVpnEvents i, false) := by
        simp [chainLoop, hns, hvpn]
      rw [hstep]
      refine ⟨rfl, rfl, ?_⟩
      intro j hj
      rcases List.mem_append.mp hj with hc | hv
      · have := addNs_mem_createNsEvents hc; omega
      · exact absurd hv (addNs_not_mem_startVpnEvents j i)
    · have hiklt : i < k := by omega
      have hstepi := hsteps i (Nat.le_refl i) hiklt
      rw [stepOk] at hstepi
      simp only [Bool.and_eq_true] at hstepi
      obtain ⟨⟨hnsi, hvpni⟩, h3⟩ := hstepi
      by_cases hi0 : i = 0
      · subst hi0
        have hrec := ih 1 s (by omega) (by omega)
          (fun j hj1 hj2 => hsteps j (by omega) hj2)
        have hstep : chainLoop env (n + 1) 0 s =
            ((chainLoop env n 1 s).1,
             createNsEvents 0 env.defaultIf ++ startVpnEvents 0
               ++ (chainLoop env n 1 s).2.1,
             (chainLoop env n 1 s).2.2) := by
          simp [chainLoop, hnsi, hvpni]
        rw [hstep]
        refine ⟨hrec.1, hrec.2.1, ?_⟩
        intro j hj
        rcases List.mem_append.mp hj with hcv | hr
        · rcases List.mem_append.mp hcv with hc | hv
          · have := addNs_mem_createNsEvents hc; omega
          · exact absurd hv (addNs_not_mem_startVpnEvents j 0)
        · have := hrec.2.2 j hr; omega
      · have hconn : env.connOk i = true := by simpa [hi0] using h3
        have hrec := ih (i + 1)
          ⟨s.vpn_chain, s.virtual_interfaces
            ++ [connectLink s (nsName (i - 1)) (nsName i)]⟩
          (by omega) (by omega) (fun j hj1 hj2 => hsteps j (by omega) hj2)
        have hstep : chainLoop env (n + 1) i s =
            ((chainLoop env n (i + 1)
               ⟨s.vpn_chain, s.virtual_interfaces
                 ++ [connectLink s (nsName (i - 1)) (nsName i)]⟩).1,
             createNsEvents i env.defaultIf ++ startVpnEvents i
               ++ connectEvents s (nsName (i - 1)) (nsName i)
               ++ (chainLoop env n (i + 1)
                 ⟨s.vpn_chain, s.virtual_interfaces
                   ++ [connectLink s (nsName (i - 1)) (nsName i)]⟩).2.1,
             (chainLoop env n (i + 1)
               ⟨s.vpn_chain, s.virtual_interfaces
                 ++ [connectLink s (nsName (i - 1)) (nsName i)]⟩).2.2) := by
          simp [chainLoop, hnsi, hvpni, hi0, hconn]
        rw [hstep]
        refine ⟨hrec.1, hrec.2.1, ?_⟩
        intro j hj
        rcases List.mem_append.mp hj with hcvc | hr
        · rcases List.mem_append.mp hcvc with hcv | hcn
          · rcases List.mem_append.mp hcv with hc | hv
            · have := addNs_mem_createNsEvents hc; omega
            · exact absurd hv (addNs_not_mem_startVpnEvents j i)
          · exact absurd hcn (addNs_not_mem_connectEvents j s _ _)
        · have := hrec.2.2 j hr; omega

/-- C1: if every sub-step succeeds for hops before `k`, hop `k`'s namespace
is created but its tunnel never reaches readiness within the attempt budget
(no attempt ever sees the device up with a successful probe), then
`setup_vpn_chain` returns failure, no namespace with index greater than `k`
is ever created, the triggered cleanup attempts deletion of every namespace
`0..k`, and the final tracked state is empty — no partial chain is left
claiming to be active. -/
theorem setup_fail_rolls_back (env : Env) (num_hops k : Nat) (s : MState)
    (hsample : (env.sample num_hops).length = num_hops)
    (hprov : num_hops ≤ env.providers.length)
    (hk : k < num_hops)
    (hpre : ∀ j, j < k → stepOk env j = true)
    (hns : env.nsOk k = true)
    (hready : ∀ a, verify_vpn_interface (env.tunUp k) (env.pingOk k) a = false) :
    (setup_vpn_chain env num_hops s).2.2 = false
    ∧ (∀ j, Ev.addNs j ∈ (setup_vpn_chain env num_hops s).2.1 → j ≤ k)
    ∧ (∀ j, j ≤ k → Ev.deleteNs j ∈ (setup_vpn_chain env num_hops s).2.1)
    ∧ (setup_vpn_chain env num_hops s).1 = chainInit := by
  have hpoll : (wait_for_vpn
      (verify_vpn_interface (env.tunUp k) (env.pingOk k))).success = false := by
    cases hsucc : (wait_for_vpn
        (verify_vpn_interface (env.tunUp k) (env.pingOk k))).success with
    | false => rfl
    | true =>
      rcases (vpnWaitLoop_success_iff
          (verify_vpn_interface (env.tunUp k) (env.pingOk k)) max_attempts 0).mp
          hsucc with ⟨j, -, hr⟩
      rw [hready (0 + j)] at hr
      cases hr
  have hvpn : vpn_start_ok env k = false := by
    rw [vpn_start_ok, hpoll, Bool.and_false]
  have hloop := chainLoop_fail_at env k hns hvpn (env.sample num_hops).length 0
    ⟨env.sample num_hops, []⟩ (by omega) (by rw [hsample]; omega)
    (fun j _ hj2 => hpre j hj2)
  have hvalid : ¬ env.providers.length < num_hops := by omega
  have hres : setup_vpn_chain env num_hops s =
      (chainInit,
       cleanupEvents s
         ++ (chainLoop env (env.sample num_hops).length 0
              ⟨env.sample num_hops, []⟩).2.1
         ++ cleanupEvents (chainLoop env (env.sample num_hops).length 0
              ⟨env.sample num_hops, []⟩).1,
       false) := by
    rw [setup_vpn_chain]
    simp only [if_neg hvalid, cleanup_vpn_chain, chainInit, hloop.1,
      Bool.false_eq_true, if_false]
  refine ⟨?_, ?_, ?_, ?_⟩
  · rw [hres]
  · intro j hj
    rw [hres] at hj
    rcases List.mem_append.mp hj with hj1 | hj2
    · rcases List.mem_append.mp hj1 with hj3 | hj4
      · exact absurd hj3 (addNs_not_mem_cleanupEvents j s)
      · have := hloop.2.2 j hj4; omega
    · exact absurd hj2 (addNs_not_mem_cleanupEvents j _)
  · intro j hjk
    rw [hres]
    have hlen : (chainLoop env (env.sample num_hops).length 0
        ⟨env.sample num_hops, []⟩).1.vpn_chain.length = num_hops := by
      rw [hloop.2.1]; exact hsample
    exact List.mem_append_right _
      (mem_deleteNs_cleanupEvents _ j (by omega))
  · rw [hres]

/-- C1 witness: two providers, two requested hops, hop 0 fully succeeding
and hop 1 never reaching readiness; the call fails, creates namespaces 0
and 1 only, attempts deletion of both, and leaves the tracked state
empty. -/
theorem setup_fail_rolls_back_witness :
    (setup_vpn_chain ⟨["a", "b"], fun n => List.take n ["a", "b"], "eth0",
        fun _ => true, fun _ => true, fun i _ => decide (i = 0),
        fun i _ => decide (i = 0), fun _ => true⟩ 2 chainInit).2.2 = false
    ∧ Ev.deleteNs 1 ∈ (setup_vpn_chain ⟨["a", "b"],
        fun n => List.take n ["a", "b"], "eth0", fun _ => true, fun _ => true,
        fun i _ => decide (i = 0), fun i _ => decide (i = 0),
        fun _ => true⟩ 2 chainInit).2.1
    ∧ (setup_vpn_chain ⟨["a", "b"], fun n => List.take n ["a", "b"], "eth0",
        fun _ => true, fun _ => true, fun i _ => decide (i = 0),
        fun i _ => decide (i = 0), fun _ => true⟩ 2 chainInit).1 = chainInit := by
  have h := setup_fail_rolls_back ⟨["a", "b"], fun n => List.take n ["a", "b"],
    "eth0", fun _ => true, fun _ => true, fun i _ => decide (i = 0),
    fun i _ => decide (i = 0), fun _ => true⟩ 2 1 chainInit (by decide)
    (by decide) (by decide)
    (fun j hj => by
      interval_cases j
      · decide)
    (by decide) (fun a => rfl)
  exact ⟨h.1, h.2.2.1 1 (Nat.le_refl 1), h.2.2.2⟩

/-! ## Lemmas about address-block allocation -/

theorem blocks_append (s : MState) (ns1 ns2 : String)
    (hinv : s.virtual_interfaces.map Link.block =
      List.range' 1 s.virtual_interfaces.length) :
    (s.virtual_interfaces ++ [connectLink s ns1 ns2]).map Link.block =
      List.range' 1 (s.virtual_interfaces ++ [connectLink s ns1 ns2]).length := by
  rw [List.map_append, hinv, List.length_append]
  simp only [List.map_cons, List.map_nil, List.length_cons, List.length_nil]
  rw [show s.virtual_interfaces.length + (0 + 1) =
    s.virtual_interfaces.length + 1 from by omega]
  rw [List.range'_concat 1 s.virtual_interfaces.length]
  congr 1
  simp [connectLink, blockOfState]
  omega

theorem chainLoop_blocks (env : Env) :
    ∀ rem i s,
      s.virtual_interfaces.map Link.block =
        List.range' 1 s.virtual_interfaces.length →
      (chainLoop env rem i s).1.virtual_interfaces.map Link.block =
        List.range' 1 (chainLoop env rem i s).1.virtual_interfaces.length := by
  intro rem
  induction rem with
  | zero => intro i s hinv; simpa [chainLoop] using hinv
  | succ n ih =>
    intro i s hinv
    cases h1 : env.nsOk i with
    | false => simpa [chainLoop, h1] using hinv
    | true =>
      cases h2 : vpn_start_ok env i with
      | false => simpa [chainLoop, h1, h2] using hinv
      | true =>
        by_cases hi0 : i = 0
        · subst hi0
          have hrec := ih 1 s hinv
          simpa [chainLoop, h1, h2] using hrec
        · cases h3 : env.connOk i with
          | false => simpa [chainLoop, h1, h2, hi0, h3] using hinv
          | true =>
            have hrec := ih (i + 1)
              ⟨s.vpn_chain, s.virtual_interfaces
                ++ [connectLink s (nsName (i - 1)) (nsName i)]⟩
              (blocks_append s (nsName (i - 1)) (nsName i) hinv)
            simpa [chainLoop, h1, h2, hi0, h3] using hrec

theorem applyChainOp_blocks (s : MState) (op : ChainOp) :
    (applyChainOp s op).1.virtual_interfaces.map Link.block =
      List.range' 1 (applyChainOp s op).1.virtual_interfaces.length := by
  cases op with
  | cleanup => simp [applyChainOp, cleanup_vpn_chain, chainInit]
  | setup env n =>
    simp only [applyChainOp]
    by_cases h : env.providers.length < n
    · rw [setup_vpn_chain]
      simp [if_pos h, cleanup_vpn_chain, chainInit]
    · have hL := chainLoop_blocks env (env.sample n).length 0 ⟨env.sample n, []⟩
        (by simp)
      rw [setup_vpn_chain]
      simp only [if_neg h, cleanup_vpn_chain, chainInit]
      cases hr : (chainLoop env (env.sample n).length 0 ⟨env.sample n, []⟩).2.2 with
      | true => simpa [hr] using hL
      | false => simp [hr, chainInit]

theorem runChainOps_blocks :
    ∀ ops s, s.virtual_interfaces.map Link.block =
        List.range' 1 s.virtual_interfaces.length →
      (runChainOps s ops).1.virtual_interfaces.map Link.block =
        List.range' 1 (runChainOps s ops).1.virtual_interfaces.length := by
  intro ops
  induction ops with
  | nil => intro s hinv; exact hinv
  | cons op rest ih =>
    intro s hinv
    have hstep := applyChainOp_blocks s op
    simpa [runChainOps] using ih (applyChainOp s op).1 hstep

/-- C3 counterexample: running Setup(2), Cleanup, Setup(2) on one manager
(every external step succeeding, two providers) draws the address-block
sequence `[1, 1]` over the manager's lifetime: the counter
`len(self.virtual_interfaces) + 1` resets when cleanup clears the tracked
list, so block allocation is NOT indexed by a monotonically increasing
counter and the same block is reused over the lifetime (by then the link
that held it has been deleted). -/
theorem blocks_reused_across_cleanup :
    allocatedBlocks (runChainOps chainInit
        [ChainOp.setup ⟨["a", "b"], fun n => List.take n ["a", "b"], "eth0",
            fun _ => true, fun _ => true, fun _ _ => true, fun _ _ => true,
            fun _ => true⟩ 2,
         ChainOp.cleanup,
         ChainOp.setup ⟨["a", "b"], fun n => List.take n ["a", "b"], "eth0",
            fun _ => true, fun _ => true, fun _ _ => true, fun _ _ => true,
            fun _ => true⟩ 2]).2 = [1, 1]
    ∧ ¬ (allocatedBlocks (runChainOps chainInit
        [ChainOp.setup ⟨["a", "b"], fun n => List.take n ["a", "b"], "eth0",
            fun _ => true, fun _ => true, fun _ _ => true, fun _ _ => true,
            fun _ => true⟩ 2,
         ChainOp.cleanup,
         ChainOp.setup ⟨["a", "b"], fun n => List.take n ["a", "b"], "eth0",
            fun _ => true, fun _ => true, fun _ _ => true, fun _ _ => true,
            fun _ => true⟩ 2]).2).Nodup := by
  constructor
  · decide
  · decide

/-- C3 amended: after any sequence of Setup/Cleanup calls on one manager,
the tracked live links hold pairwise-distinct address blocks — the blocks
are exactly `1 .. len(virtual_interfaces)` in creation order, so no two
concurrently-live tracked links ever share a block; the allocation index is
the current tracked-link count (which resets on cleanup), not a counter
that is monotonic over the manager's lifetime. -/
theorem live_links_blocks_distinct (ops : List ChainOp) :
    ((runChainOps chainInit ops).1.virtual_interfaces.map Link.block =
      List.range' 1 (runChainOps chainInit ops).1.virtual_interfaces.length)
    ∧ ((runChainOps chainInit ops).1.virtual_interfaces.map Link.block).Nodup := by
  have h := runChainOps_blocks ops chainInit rfl
  refine ⟨h, ?_⟩
  rw [h]
  apply List.nodup_range'
  norm_num

/-! ## The routing-table registration -/

/-- C9 evidence: the registration write `write_routing_tables` carries the
argv element `--c` (the builder prefixes every option with `--`, though the
factory's own option table declares the bash option as the single letter
`c`), which bash rejects; with that write failing, a call on a file lacking
the two table ids returns `False` having issued only the read and the
failed write — across any number of repeated calls nothing is ever appended
and the tables are never registered, and no delete/flush command is ever
reached on that path.  Moreover, on every path, no command the function
issues contains the word `route`: despite its name, `flush_routing_table`
builds an `ip rule` command, so routes in the two tables are never
flushed. -/
theorem routing_rules_write_aborts :
    setup_routing_rules ⟨true, false⟩ "" =
      ("", [read_routing_tables, write_routing_tables tablesContent], false)
    ∧ "--c" ∈ write_routing_tables tablesContent
    ∧ (∀ n, iter_setup_routing ⟨true, false⟩ n "" = ""
        ∧ tablesRegistered (iter_setup_routing ⟨true, false⟩ n "") = false)
    ∧ (∀ env file, ∀ c ∈ (setup_routing_rules env file).2.1, "route" ∉ c) := by
  have hfile : (setup_routing_rules ⟨true, false⟩ "").1 = "" := by decide
  refine ⟨by decide, by decide, ?_, ?_⟩
  · intro n
    have hiter : iter_setup_routing ⟨true, false⟩ n "" = "" := by
      induction n with
      | zero => rfl
      | succ m ih =>
        show iter_setup_routing ⟨true, false⟩ m
          (setup_routing_rules ⟨true, false⟩ "").1 = ""
        rw [hfile]
        exact ih
    refine ⟨hiter, ?_⟩
    rw [hiter]
    decide
  · intro env file c hc
    rw [setup_routing_rules] at hc
    cases h1 : env.readOk && tablesRegistered file with
    | true =>
      simp only [h1, if_true] at hc
      rcases List.mem_cons.mp hc with rfl | hc
      · decide
      rcases List.mem_cons.mp hc with rfl | hc
      · decide
      rcases List.mem_cons.mp hc with rfl | hc
      · decide
      rcases List.mem_cons.mp hc with rfl | hc
      · decide
      rcases List.mem_cons.mp hc with rfl | hc
      · decide
      cases hc
    | false =>
      simp only [h1, Bool.false_eq_true, if_false] at hc
      cases h2 : env.writeOk with
      | true =>
        simp only [h2, if_true] at hc
        rcases List.mem_cons.mp hc with rfl | hc
        · decide
        rcases List.mem_cons.mp hc with rfl | hc
        · decide
        rcases List.mem_cons.mp hc with rfl | hc
        · decide
        rcases List.mem_cons.mp hc with rfl | hc
        · decide
        rcases List.mem_cons.mp hc with rfl | hc
        · decide
        rcases List.mem_cons.mp hc with rfl | hc
        · decide
        cases hc
      | false =>
        simp only [h2, Bool.false_eq_true, if_false] at hc
        rcases List.mem_cons.mp hc with rfl | hc
        · decide
        rcases List.mem_cons.mp hc with rfl | hc
        · decide
        cases hc

/-- C9 evidence witness: the no-route-command fact of the theorem applied
to a call whose commands do reach the flush loop (both table ids present,
read succeeding), at the first rule-delete command. -/
theorem routing_rules_write_aborts_witness :
    "route" ∉ delete_routing_rule (Nat.repr vpn1_table) := by
  have h := routing_rules_write_aborts
  exact h.2.2.2 ⟨true, true⟩ ("11 vpn1\n12 vpn2\n")
    (delete_routing_rule (Nat.repr vpn1_table)) (by decide)
